import Mathlib

/-!
Verification development for the Titanium CLI core: the Logger
(src/unnamed/part_000), the command registrar applyCommandConfig
(src/README.md, apply-command-config portion), and the top-level failure
handler (src/src/main.js).

Chalk color wrappers (gray, magenta, red, green, yellow, bold, cyan) only
add ANSI escape codes around their argument; they are modelled as the
identity on strings, so the message texts below are the uncolored texts.
-/

namespace Titanium

/-! Logger (src/unnamed/part_000). The class holds private fields
banner, bannerEnabled, skipBanner, bannerRendered, level and
timestampEnabled; output goes to process.stdout or process.stderr. -/

inductive Stream where
  | stdout
  | stderr
deriving DecidableEq, Repr

/-- Names accepted by setLevel, the keys of the levels table. -/
inductive LevelName where
  | trace
  | debug
  | info
  | warn
  | error
deriving DecidableEq, Repr

/-- Logger.levels table from the source: trace 1, debug 2, info 3, warn 4,
error 5333. -/
def levels : LevelName → Nat
  | .trace => 1
  | .debug => 2
  | .info => 3
  | .warn => 4
  | .error => 5333

structure LoggerState where
  banner : String
  bannerEnabled : Bool
  skipBanner : Bool
  bannerRendered : Bool
  level : Nat
  timestampEnabled : Bool
deriving DecidableEq, Repr

/-- Initial field values of a fresh Logger: banner empty, bannerEnabled true,
skipBanner false, bannerRendered false, level 3, timestampEnabled false. -/
def initLogger : LoggerState :=
  { banner := "", bannerEnabled := true, skipBanner := false,
    bannerRendered := false, level := 3, timestampEnabled := false }

/-- Logger.render(level, out, msg): writes msg to out when
level ≥ the current threshold; when timestampEnabled it first writes
the current time (the now argument stands for new Date().toISOString())
followed by a dash separator. The result is the write performed, if any. -/
def render (s : LoggerState) (level : Nat) (out : Stream) (now msg : String) :
    Option (Stream × String) :=
  if s.level ≤ level then
    some (out, (if s.timestampEnabled then now ++ " - " else "") ++ msg)
  else
    none

/-- Logger.log: renders at level 9 on stdout. -/
def logCall (s : LoggerState) (now msg : String) : Option (Stream × String) :=
  render s 9 Stream.stdout now (msg ++ "\n")

/-- Logger.trace: renders at level 1 on stdout. -/
def traceCall (s : LoggerState) (now msg : String) : Option (Stream × String) :=
  render s 1 Stream.stdout now ("[TRACE] " ++ msg ++ "\n")

/-- Logger.debug: renders at level 2 on stdout. -/
def debugCall (s : LoggerState) (now msg : String) : Option (Stream × String) :=
  render s 2 Stream.stdout now ("[DEBUG] " ++ msg ++ "\n")

/-- Logger.error: renders at level 3 on stderr. -/
def errorCall (s : LoggerState) (now msg : String) : Option (Stream × String) :=
  render s 3 Stream.stderr now ("[ERROR] " ++ msg ++ "\n")

/-- Logger.info: renders at level 4 on stdout. -/
def infoCall (s : LoggerState) (now msg : String) : Option (Stream × String) :=
  render s 4 Stream.stdout now ("[INFO]  " ++ msg ++ "\n")

/-- Logger.warn: renders at level 5 on stdout. -/
def warnCall (s : LoggerState) (now msg : String) : Option (Stream × String) :=
  render s 5 Stream.stdout now ("[WARN]  " ++ msg ++ "\n")

/-- Result of Logger.banner(): the updated state, the text written to
stdout (the banner and the trailing newline, combined), and whether the
cli:logger-banner event was emitted. -/
structure BannerResult where
  state : LoggerState
  written : Option String
  emitted : Bool
deriving DecidableEq, Repr

/-- Logger.banner(): when bannerEnabled, not skipBanner, the level is
truthy (non-zero) and the banner was not already rendered, writes the
banner text plus a newline, marks it rendered and emits
cli:logger-banner; otherwise does nothing. -/
def bannerCall (s : LoggerState) : BannerResult :=
  if s.bannerEnabled && !s.skipBanner && s.level != 0 && !s.bannerRendered then
    { state := { s with bannerRendered := true },
      written := some (s.banner ++ "\n"),
      emitted := true }
  else
    { state := s, written := none, emitted := false }

/-- Logger.setLevel: looks the name up in the levels table. -/
def setLevel (s : LoggerState) (name : LevelName) : LoggerState :=
  { s with level := levels name }

/-- Logger.silence: sets the level to 0. -/
def silence (s : LoggerState) : LoggerState :=
  { s with level := 0 }

/-- Logger.bannerEnabled setter branch. -/
def setBannerEnabled (s : LoggerState) (b : Bool) : LoggerState :=
  { s with bannerEnabled := b }

/-- Logger.skipBanner setter branch. -/
def setSkipBanner (s : LoggerState) (b : Bool) : LoggerState :=
  { s with skipBanner := b }

/-- Logger.timestampEnabled setter branch. -/
def setTimestampEnabled (s : LoggerState) (b : Bool) : LoggerState :=
  { s with timestampEnabled := b }

/-- Logger.setBanner: formats the banner text from the name, copyright,
version and optional sdkVersion (bold and cyan modelled as identity). -/
def setBanner (s : LoggerState) (name copyright version : String)
    (sdkVersion : Option String) : LoggerState :=
  { s with banner :=
      name ++ " v" ++ version
      ++ (match sdkVersion with | some sv => " SDK v" ++ sv | none => "")
      ++ "\n" ++ copyright
      ++ "\n\nWant to help? https://tidev.io/donate or https://tidev.io/contribute\n" }

/-- One Logger method invocation, used to speak about arbitrary sequences
of calls within one process. -/
inductive LoggerOp where
  | setLevel (name : LevelName)
  | silence
  | bannerEnabled (b : Bool)
  | skipBanner (b : Bool)
  | timestampEnabled (b : Bool)
  | setBanner (name copyright version : String) (sdkVersion : Option String)
  | banner
  | log (now msg : String)
  | trace (now msg : String)
  | debug (now msg : String)
  | error (now msg : String)
  | info (now msg : String)
  | warn (now msg : String)

/-- State transition of one Logger method call; the output calls do not
mutate the state. -/
def step (s : LoggerState) : LoggerOp → LoggerState
  | .setLevel n => setLevel s n
  | .silence => silence s
  | .bannerEnabled b => setBannerEnabled s b
  | .skipBanner b => setSkipBanner s b
  | .timestampEnabled b => setTimestampEnabled s b
  | .setBanner n c v sv => setBanner s n c v sv
  | .banner => (bannerCall s).state
  | .log _ _ => s
  | .trace _ _ => s
  | .debug _ _ => s
  | .error _ _ => s
  | .info _ _ => s
  | .warn _ _ => s

theorem step_bannerRendered_mono (s : LoggerState) (op : LoggerOp)
    (h : s.bannerRendered = true) : (step s op).bannerRendered = true := by
  cases op <;>
    simp [step, setLevel, silence, setBannerEnabled, setSkipBanner,
      setTimestampEnabled, setBanner, bannerCall, h]

theorem steps_bannerRendered_mono (ops : List LoggerOp) (s : LoggerState)
    (h : s.bannerRendered = true) : (ops.foldl step s).bannerRendered = true := by
  induction ops generalizing s with
  | nil => exact h
  | cons op tl ih => exact ih _ (step_bannerRendered_mono s op h)

/-! Command registrar: applyCommandConfig (src/README.md, the
apply-command-config portion). The claims below concern the switches the
function registers on the command node itself, which involve only the
descriptor fields flags and options: title and alias set display
properties, args add positional arguments, and subcommands wire child
nodes via recursive cli.applyConfig calls, none of which registers a
switch on this node. -/

/-- Flag metadata from a command descriptor: abbr, desc, hidden. -/
structure FlagMeta where
  abbr : Option String
  desc : String
  hidden : Bool
deriving DecidableEq, Repr

/-- Option metadata from a command descriptor: abbr, desc, hidden,
default, values (the allowedValues set) and callback (modelled by whether
one is present). -/
structure OptionMeta where
  abbr : Option String
  desc : String
  hidden : Bool
  default : Option String
  values : Option (List String)
  hasCallback : Bool
deriving DecidableEq, Repr

/-- Fields of a command descriptor that register switches on the node;
JavaScript object maps become association lists with distinct keys. An
absent map and an empty map register the same switches, so both are the
empty list. -/
structure CommandConf where
  flags : List (String × FlagMeta)
  options : List (String × OptionMeta)
deriving DecidableEq, Repr

/-- Kind of a registered switch: a boolean flag (new Option without a
value placeholder, as in the flags loop and the synthetic timestamp
option) or a value-taking option (new Option with a [value] placeholder). -/
inductive SwitchKind where
  | flag
  | valueOption
deriving DecidableEq, Repr

/-- Switches applyCommandConfig registers on the command node, in source
order: every entry of conf.flags; every entry of conf.options except the
name sdk, which is skipped; and, when conf.options has a log-level entry
and no timestamp entry, a synthetic boolean timestamp option. -/
def registeredSwitches (conf : CommandConf) : List (String × SwitchKind) :=
  (conf.flags.map fun p => (p.1, SwitchKind.flag))
  ++ ((conf.options.filter fun p => p.1 ≠ "sdk").map fun p => (p.1, SwitchKind.valueOption))
  ++ (if (conf.options.lookup "log-level").isSome && (conf.options.lookup "timestamp").isNone
      then [("timestamp", SwitchKind.flag)] else [])

/-- Option names applyCommandConfig skips with a trace note: exactly the
entries of conf.options named sdk. -/
def skippedOptions (conf : CommandConf) : List String :=
  (conf.options.filter fun p => p.1 = "sdk").map Prod.fst

/-- Handler installed for the synthetic timestamp option: when the cli is
ready it enables timestamps on the logger, otherwise it does nothing. -/
def timestampOptionHandler (ready : Bool) (s : LoggerState) : LoggerState :=
  if ready then setTimestampEnabled s true else s

/-! Dispatcher option parsing. The Dispatcher (cli.js) is not among the
provided sources; the parse step is modelled from the spec. -/

/-- Usage error raised during parsing; the node field records the
offending command node (the subcommand configureOutput outputError
handler sets cli.command to the erroring node and throws a TiError). -/
structure UsageError where
  node : Nat
  message : String
deriving DecidableEq, Repr

/-- Modelled from the spec: a supplied option value passes validation
when the option has no allowedValues set or the value is in the set. -/
def checkAllowed (meta : OptionMeta) (v : String) : Bool :=
  match meta.values with
  | some vs => vs.contains v
  | none => true

/-- Modelled from the spec: the first registered option whose supplied
value is outside its allowedValues set, if any. -/
def firstViolation : List (String × OptionMeta) → List (String × String) → Option String
  | [], _ => none
  | p :: tl, input =>
    match input.lookup p.1 with
    | some v => if checkAllowed p.2 v then firstViolation tl input else some p.1
    | none => firstViolation tl input

/-- Modelled from the spec: the value an option resolves to in the
Execution Context: the supplied value when the option was supplied,
otherwise the declared default when one exists. -/
def resolveValue (meta : OptionMeta) (supplied : Option String) : Option String :=
  match supplied with
  | some v => some v
  | none => meta.default

/-- Modelled from the spec: the Execution Context option values after a
successful parse, one entry per registered option that resolved to a
value. -/
def buildContext (opts : List (String × OptionMeta))
    (input : List (String × String)) : List (String × String) :=
  opts.filterMap fun p => (resolveValue p.2 (input.lookup p.1)).map fun v => (p.1, v)

/-- Modelled from the spec: parsing the supplied option values against
the registered options of the command node. A value outside an
allowedValues set is a usage error identifying the node; otherwise the
Execution Context values are produced. -/
def parseOptions (node : Nat) (opts : List (String × OptionMeta))
    (input : List (String × String)) :
    Except UsageError (List (String × String)) :=
  match firstViolation opts input with
  | some n => Except.error { node := node, message := "invalid value for option --" ++ n }
  | none => Except.ok (buildContext opts input)

/-- Outcome of dispatching one command: the Execution Context handed to
the run behavior when it ran, whether the run behavior was invoked, and
the usage error, if parsing failed. -/
structure DispatchResult where
  context : Option (List (String × String))
  ranAction : Bool
  usageError : Option UsageError
deriving DecidableEq, Repr

/-- Modelled from the spec: the Dispatcher parses the input against the
node and invokes the run behavior only on a successful parse. -/
def dispatchCommand (node : Nat) (opts : List (String × OptionMeta))
    (input : List (String × String)) : DispatchResult :=
  match parseOptions node opts input with
  | Except.error e => { context := none, ranAction := false, usageError := some e }
  | Except.ok ctx => { context := some ctx, ranAction := true, usageError := none }

/-! Top-level failure handler (src/src/main.js, the catch block around
cli.init). -/

/-- Shape of a caught top-level failure: whether it is a TiError, its
message, its stack trace rendering, and the optional before and after
context blocks. -/
structure ErrorInfo where
  isTiError : Bool
  message : String
  stack : String
  before : Option String
  after : Option String
deriving DecidableEq, Repr

/-- Observable effects of the top-level handler, in order. -/
inductive TopEffect where
  | writeBanner (text : String)
  | writeError (text : String)
  | showHelp (node : Nat)
  | exitProcess (code : Nat)
deriving DecidableEq, Repr

/-- Text passed to console.error by the catch block: the before block and
a blank line when present, then the TiError message after an Error label
or the stack trace for any other error, trimmed (chalk.red modelled as
identity), a newline, then the after block on its own lines when
present. -/
def formatFailure (e : ErrorInfo) : String :=
  (match e.before with | some b => b ++ "\n\n" | none => "")
  ++ (if e.isTiError then "Error: " ++ e.message else e.stack).trim
  ++ "\n"
  ++ (match e.after with | some a => "\n" ++ a ++ "\n" | none => "")

/-- Help target of the catch block, from cli.command and cli.program with
the or-else and optional chaining of (cli.command or cli.program)?.help(). -/
def helpTarget (command program : Option Nat) : List TopEffect :=
  match command with
  | some c => [TopEffect.showHelp c]
  | none =>
    match program with
    | some p => [TopEffect.showHelp p]
    | none => []

/-- Catch block of src/src/main.js: force bannerEnabled true and
skipBanner false, call banner(), print the formatted failure, show the
help of cli.command when a command resolved or else of cli.program, and
exit with code 1. Returns the effect sequence and the logger state. -/
def handleTopLevelFailure (s : LoggerState) (e : ErrorInfo)
    (command program : Option Nat) : List TopEffect × LoggerState :=
  let s2 := setSkipBanner (setBannerEnabled s true) false
  let br := bannerCall s2
  ((match br.written with
    | some t => [TopEffect.writeBanner t]
    | none => [])
   ++ [TopEffect.writeError (formatFailure e)]
   ++ helpTarget command program
   ++ [TopEffect.exitProcess 1],
   br.state)

/-- Predicate picking out banner writes among the handler effects. -/
def isBannerWrite : TopEffect → Bool
  | .writeBanner _ => true
  | _ => false

/-! Helper lemmas. -/

theorem bannerCall_isSome_rendered (s : LoggerState)
    (h : (bannerCall s).written.isSome = true) :
    (bannerCall s).state.bannerRendered = true := by
  unfold bannerCall at *
  split at h <;> simp_all

theorem bannerCall_rendered_none (s : LoggerState)
    (h : s.bannerRendered = true) : (bannerCall s).written = none := by
  unfold bannerCall
  split <;> simp_all

theorem bannerCall_forced (s : LoggerState) :
    (bannerCall (setSkipBanner (setBannerEnabled s true) false)).written =
      if s.level != 0 && !s.bannerRendered then some (s.banner ++ "\n")
      else none := by
  simp only [setBannerEnabled, setSkipBanner, bannerCall, Bool.true_and,
    Bool.not_false]
  cases h : (s.level != 0 && !s.bannerRendered) <;> rfl

theorem firstViolation_isSome (opts : List (String × OptionMeta))
    (input : List (String × String)) (name : String) (meta : OptionMeta)
    (hmem : (name, meta) ∈ opts) (v : String)
    (hv : input.lookup name = some v) (hbad : checkAllowed meta v = false) :
    (firstViolation opts input).isSome = true := by
  induction opts with
  | nil => cases hmem
  | cons hd tl ih =>
    rcases List.mem_cons.mp hmem with heq | hmemtl
    · subst heq
      simp [firstViolation, hv, hbad]
    · have htl := ih hmemtl
      simp only [firstViolation]
      cases hl : input.lookup hd.1 with
      | none => exact htl
      | some w =>
        by_cases hc : checkAllowed hd.2 w = true
        · simp only [hc, if_true]
          exact htl
        · simp only [Bool.not_eq_true] at hc
          simp only [hc, Bool.false_eq_true, if_false, Option.isSome_some]

theorem buildContext_lookup (opts : List (String × OptionMeta))
    (input : List (String × String)) (name : String) (meta : OptionMeta)
    (hnd : (opts.map Prod.fst).Nodup) (hmem : (name, meta) ∈ opts)
    (v : String) (hres : resolveValue meta (input.lookup name) = some v) :
    (buildContext opts input).lookup name = some v := by
  induction opts with
  | nil => cases hmem
  | cons hd tl ih =>
    rw [List.map_cons] at hnd
    have hnd2 := List.nodup_cons.mp hnd
    rcases List.mem_cons.mp hmem with heq | hmemtl
    · subst heq
      simp only [buildContext, List.filterMap_cons, hres, Option.map_some]
      simp [List.lookup]
    · have hne : hd.1 ≠ name := by
        intro hcontra
        exact hnd2.1 (hcontra ▸ List.mem_map.mpr ⟨(name, meta), hmemtl, rfl⟩)
      simp only [buildContext, List.filterMap_cons]
      cases hf : (resolveValue hd.2 (input.lookup hd.1)).map fun w => (hd.1, w) with
      | none => exact ih hnd2.2 hmemtl
      | some b =>
        rcases Option.map_eq_some.mp hf with ⟨w, hw, hb⟩
        subst hb
        have hb : (name == hd.1) = false := by simpa using Ne.symm hne
        simp only [List.lookup, hb]
        exact ih hnd2.2 hmemtl

/-! Claim theorems. -/

/-- C1: evaluation at the failing input. The levels table assigns error
the value 5333 rather than 5, and after setLevel error the level-agnostic
log call performs no write, because its fixed level 9 is below the
threshold 5333; the default threshold is the info value. -/
theorem claim_C1_error_level_breaks_log :
    levels LevelName.error = 5333 ∧
    initLogger.level = levels LevelName.info ∧
    logCall (setLevel initLogger LevelName.error) "2024-01-01T00:00:00.000Z" "hello"
      = none := by
  refine ⟨rfl, rfl, rfl⟩

/-- C2: evaluation after silence(). The threshold becomes 0 and every
output call still writes, because the check in render compares with a
threshold of 0 that every level passes. -/
theorem claim_C2_silence_suppresses_nothing :
    (silence initLogger).level = 0 ∧
    logCall (silence initLogger) "T" "hello" = some (Stream.stdout, "hello\n") ∧
    traceCall (silence initLogger) "T" "hello" = some (Stream.stdout, "[TRACE] hello\n") ∧
    debugCall (silence initLogger) "T" "hello" = some (Stream.stdout, "[DEBUG] hello\n") ∧
    errorCall (silence initLogger) "T" "hello" = some (Stream.stderr, "[ERROR] hello\n") ∧
    infoCall (silence initLogger) "T" "hello" = some (Stream.stdout, "[INFO]  hello\n") ∧
    warnCall (silence initLogger) "T" "hello" = some (Stream.stdout, "[WARN]  hello\n") := by
  refine ⟨rfl, rfl, rfl, rfl, rfl, rfl, rfl⟩

/-- C3: banner() writes the banner text and emits the cli:logger-banner
notification exactly when bannerEnabled is true, skipBanner is false, the
threshold is non-zero and the banner was not already rendered; a
successful render marks the banner rendered, and after it every later
banner() call, across any sequence of Logger operations in the same
process, writes nothing. -/
theorem claim_C3_banner_at_most_once :
    (∀ s : LoggerState,
      ((bannerCall s).written.isSome = true ∧ (bannerCall s).emitted = true) ↔
        (s.bannerEnabled = true ∧ s.skipBanner = false ∧ s.level ≠ 0 ∧
          s.bannerRendered = false)) ∧
    (∀ s : LoggerState, (bannerCall s).written.isSome = true →
        (bannerCall s).state.bannerRendered = true) ∧
    (∀ (s : LoggerState) (ops : List LoggerOp),
        (bannerCall s).written.isSome = true →
        (bannerCall (ops.foldl step (bannerCall s).state)).written = none) := by
  refine ⟨?_, ?_, ?_⟩
  · intro s
    unfold bannerCall
    split <;> simp_all
  · intro s h
    exact bannerCall_isSome_rendered s h
  · intro s ops h
    exact bannerCall_rendered_none _
      (steps_bannerRendered_mono ops _ (bannerCall_isSome_rendered s h))

/-- C3 witness: the fresh Logger satisfies the four gates and renders;
afterwards banner() writes nothing, even after re-enabling the banner. -/
theorem claim_C3_banner_at_most_once_witness :
    (((bannerCall initLogger).written.isSome = true ∧
        (bannerCall initLogger).emitted = true) ↔
      (initLogger.bannerEnabled = true ∧ initLogger.skipBanner = false ∧
        initLogger.level ≠ 0 ∧ initLogger.bannerRendered = false)) ∧
    (bannerCall initLogger).state.bannerRendered = true ∧
    (bannerCall ((([LoggerOp.bannerEnabled true]).foldl step
        (bannerCall initLogger).state))).written = none :=
  ⟨claim_C3_banner_at_most_once.1 initLogger,
   claim_C3_banner_at_most_once.2.1 initLogger rfl,
   claim_C3_banner_at_most_once.2.2 initLogger [LoggerOp.bannerEnabled true] rfl⟩

/-- C4: render writes to the given stream exactly when the level is at
least the current threshold; with timestamping enabled the written text
is the timestamp (the toISOString value), a dash separator and the
message; with it disabled the written text is exactly the message. -/
theorem claim_C4_render_contract :
    ∀ (s : LoggerState) (level : Nat) (out : Stream) (now msg : String),
      ((render s level out now msg).isSome = true ↔ s.level ≤ level) ∧
      (s.timestampEnabled = true → s.level ≤ level →
        render s level out now msg = some (out, now ++ " - " ++ msg)) ∧
      (s.timestampEnabled = false → s.level ≤ level →
        render s level out now msg = some (out, msg)) := by
  intro s level out now msg
  refine ⟨?_, ?_, ?_⟩
  · unfold render
    split <;> simp_all
  · intro ht hle
    unfold render
    rw [if_pos hle, ht]
    simp [String.append_assoc]
  · intro ht hle
    unfold render
    rw [if_pos hle, ht]
    simp [String.empty_append]

/-- C4 witness: at the default threshold 3 a level-3 render writes; with
timestamping on the timestamp leads, with it off exactly the message is
written. -/
theorem claim_C4_render_contract_witness :
    render (setTimestampEnabled initLogger true) 3 Stream.stdout "T" "m"
      = some (Stream.stdout, "T" ++ " - " ++ "m") ∧
    render initLogger 3 Stream.stdout "T" "m" = some (Stream.stdout, "m") :=
  ⟨(claim_C4_render_contract (setTimestampEnabled initLogger true) 3
      Stream.stdout "T" "m").2.1 rfl (by decide),
   (claim_C4_render_contract initLogger 3 Stream.stdout "T" "m").2.2 rfl (by decide)⟩

/-- C10: every write the error method performs goes to stderr, and every
write the log, trace, debug, info and warn methods perform goes to
stdout. -/
theorem claim_C10_stream_routing :
    ∀ (s : LoggerState) (now msg : String) (w : Stream × String),
      (errorCall s now msg = some w → w.1 = Stream.stderr) ∧
      (logCall s now msg = some w → w.1 = Stream.stdout) ∧
      (traceCall s now msg = some w → w.1 = Stream.stdout) ∧
      (debugCall s now msg = some w → w.1 = Stream.stdout) ∧
      (infoCall s now msg = some w → w.1 = Stream.stdout) ∧
      (warnCall s now msg = some w → w.1 = Stream.stdout) := by
  intro s now msg w
  refine ⟨?_, ?_, ?_, ?_, ?_, ?_⟩ <;>
  · intro h
    simp only [errorCall, logCall, traceCall, debugCall, infoCall, warnCall,
      render] at h
    split at h <;> simp_all
    exact (congrArg Prod.fst h.symm)

/-- C10 witness: with the threshold at 0 every method writes; the error
write lands on stderr and the log write on stdout. -/
theorem claim_C10_stream_routing_witness :
    (Stream.stderr, ("" ++ ("[ERROR] " ++ "m" ++ "\n") : String)).1 = Stream.stderr ∧
    (Stream.stdout, ("" ++ ("m" ++ "\n") : String)).1 = Stream.stdout :=
  ⟨(claim_C10_stream_routing (silence initLogger) "T" "m"
      (Stream.stderr, "" ++ ("[ERROR] " ++ "m" ++ "\n"))).1 rfl,
   (claim_C10_stream_routing (silence initLogger) "T" "m"
      (Stream.stdout, "" ++ ("m" ++ "\n"))).2.1 rfl⟩

/-- Flag metadata for a flag named sdk. -/
def sdkFlagMeta : FlagMeta :=
  { abbr := none, desc := "the sdk flag", hidden := false }

/-- Option metadata for an option named sdk. -/
def sdkOptMeta : OptionMeta :=
  { abbr := some "s", desc := "the sdk option", hidden := false,
    default := none, values := none, hasCallback := false }

/-- Descriptor whose flags map and options map each contain an entry
named sdk. -/
def sdkBothConf : CommandConf :=
  { flags := [("sdk", sdkFlagMeta)], options := [("sdk", sdkOptMeta)] }

/-- C5 counterexample: a descriptor whose flags map contains an entry
named sdk does get an sdk switch registered on the node, because the
flags loop has no sdk skip. -/
theorem claim_C5_counterexample :
    ("sdk", SwitchKind.flag) ∈ registeredSwitches sdkBothConf := by decide

/-- C5 amended: an option named sdk is never registered on the node and
is skipped with a trace note; the flags loop performs no such skip, so a
flag named sdk in the flags map is registered like any other flag. -/
theorem claim_C5_sdk_option_skipped :
    ∀ conf : CommandConf,
      ("sdk", SwitchKind.valueOption) ∉ registeredSwitches conf ∧
      ("sdk" ∈ conf.options.map Prod.fst → "sdk" ∈ skippedOptions conf) ∧
      ("sdk" ∈ conf.flags.map Prod.fst →
        ("sdk", SwitchKind.flag) ∈ registeredSwitches conf) := by
  intro conf
  refine ⟨?_, ?_, ?_⟩
  · intro hmem
    simp only [registeredSwitches, List.mem_append] at hmem
    rcases hmem with (h | h) | h
    · rcases List.mem_map.mp h with ⟨p, _, he⟩
      simp at he
    · rcases List.mem_map.mp h with ⟨p, hp, he⟩
      simp only [Prod.mk.injEq] at he
      have h2 : p.1 ≠ "sdk" := by simpa using (List.mem_filter.mp hp).2
      exact h2 he.1
    · split at h
      · simp at h
      · cases h
  · intro hmem
    rcases List.mem_map.mp hmem with ⟨p, hp, he⟩
    exact List.mem_map.mpr ⟨p, List.mem_filter.mpr ⟨hp, by simpa using he⟩, he⟩
  · intro hmem
    rcases List.mem_map.mp hmem with ⟨p, hp, he⟩
    exact List.mem_append.mpr (Or.inl (List.mem_append.mpr (Or.inl
      (List.mem_map.mpr ⟨p, hp, by rw [he]⟩))))

/-- C5 witness: on the descriptor with sdk in both maps, no sdk value
option is registered, the sdk option is skipped, and the sdk flag is
registered. -/
theorem claim_C5_sdk_option_skipped_witness :
    ("sdk", SwitchKind.valueOption) ∉ registeredSwitches sdkBothConf ∧
    "sdk" ∈ skippedOptions sdkBothConf ∧
    ("sdk", SwitchKind.flag) ∈ registeredSwitches sdkBothConf :=
  ⟨(claim_C5_sdk_option_skipped sdkBothConf).1,
   (claim_C5_sdk_option_skipped sdkBothConf).2.1 (by decide),
   (claim_C5_sdk_option_skipped sdkBothConf).2.2 (by decide)⟩

/-- C6: for an option carrying an allowedValues set, a supplied value
outside the set makes the dispatch stop with a usage error whose node is
the offending command node, and the run behavior is never invoked. -/
theorem claim_C6_allowed_values_usage_error :
    ∀ (node : Nat) (opts : List (String × OptionMeta))
      (input : List (String × String)) (name : String) (meta : OptionMeta)
      (vs : List String) (v : String),
      (name, meta) ∈ opts → meta.values = some vs →
      input.lookup name = some v → vs.contains v = false →
      (dispatchCommand node opts input).ranAction = false ∧
      ∃ e : UsageError, (dispatchCommand node opts input).usageError = some e ∧
        e.node = node := by
  intro node opts input name meta vs v hmem hvals hv hbad
  have hb : checkAllowed meta v = false := by
    unfold checkAllowed
    rw [hvals]
    exact hbad
  have hs := firstViolation_isSome opts input name meta hmem v hv hb
  rcases Option.isSome_iff_exists.mp hs with ⟨n, hn⟩
  unfold dispatchCommand parseOptions
  rw [hn]
  exact ⟨rfl, ⟨_, rfl, rfl⟩⟩

/-- Option metadata of the output option of the status command: default
report, allowedValues report and json. -/
def outputOptMeta : OptionMeta :=
  { abbr := some "o", desc := "output format", hidden := false,
    default := some "report", values := some ["report", "json"],
    hasCallback := false }

/-- C6 witness: supplying output xml against the allowed set consisting
of report and json stops dispatch on node 7 without running the action. -/
theorem claim_C6_allowed_values_usage_error_witness :
    (dispatchCommand 7 [("output", outputOptMeta)] [("output", "xml")]).ranAction
      = false ∧
    ∃ e : UsageError,
      (dispatchCommand 7 [("output", outputOptMeta)] [("output", "xml")]).usageError
        = some e ∧ e.node = 7 :=
  claim_C6_allowed_values_usage_error 7 [("output", outputOptMeta)]
    [("output", "xml")] "output" outputOptMeta ["report", "json"] "xml"
    (by decide) (by decide) (by decide) (by decide)

/-- C7: for an option declaring a default, and distinct registered option
names, omitting the option yields exactly the default in the Execution
Context handed to the run behavior, and supplying it yields the supplied
value. -/
theorem claim_C7_default_values :
    ∀ (node : Nat) (opts : List (String × OptionMeta))
      (input : List (String × String)) (name : String) (meta : OptionMeta)
      (d : String),
      (opts.map Prod.fst).Nodup → (name, meta) ∈ opts → meta.default = some d →
      (input.lookup name = none →
        ∀ ctx, (dispatchCommand node opts input).context = some ctx →
          ctx.lookup name = some d) ∧
      (∀ v, input.lookup name = some v →
        ∀ ctx, (dispatchCommand node opts input).context = some ctx →
          ctx.lookup name = some v) := by
  intro node opts input name meta d hnd hmem hdef
  have hctx : ∀ ctx, (dispatchCommand node opts input).context = some ctx →
      ctx = buildContext opts input := by
    intro ctx h
    unfold dispatchCommand parseOptions at h
    cases hfv : firstViolation opts input with
    | some n => rw [hfv] at h; cases h
    | none => rw [hfv] at h; simpa using h.symm
  refine ⟨?_, ?_⟩
  · intro hnone ctx h
    rw [hctx ctx h]
    exact buildContext_lookup opts input name meta hnd hmem d
      (by simp [resolveValue, hnone, hdef])
  · intro v hsup ctx h
    rw [hctx ctx h]
    exact buildContext_lookup opts input name meta hnd hmem v
      (by simp [resolveValue, hsup])

/-- C7 witness: with the output option defaulting to report, an empty
input resolves output to report and a supplied json resolves to json. -/
theorem claim_C7_default_values_witness :
    ([(("output" : String), ("report" : String))]).lookup "output"
      = some "report" ∧
    ([(("output" : String), ("json" : String))]).lookup "output"
      = some "json" :=
  ⟨(claim_C7_default_values 7 [("output", outputOptMeta)] [] "output"
      outputOptMeta "report" (by decide) (by decide) (by decide)).1
      (by decide) [("output", "report")] (by decide),
   (claim_C7_default_values 7 [("output", outputOptMeta)]
      [("output", "json")] "output" outputOptMeta "report"
      (by decide) (by decide) (by decide)).2 "json" (by decide)
      [("output", "json")] (by decide)⟩

/-- C8: for a descriptor without a flag named timestamp, a timestamp
switch is registered exactly when the options map has a log-level entry
and no timestamp entry; once the cli is ready the installed handler
enables timestamps on the Logger; and with timestamps enabled every
rendered line starts with the timestamp. -/
theorem claim_C8_synthetic_timestamp :
    (∀ conf : CommandConf, "timestamp" ∉ conf.flags.map Prod.fst →
      ((("timestamp", SwitchKind.flag) ∈ registeredSwitches conf) ↔
        ((conf.options.lookup "log-level").isSome = true ∧
          (conf.options.lookup "timestamp").isNone = true))) ∧
    (∀ s : LoggerState, (timestampOptionHandler true s).timestampEnabled = true) ∧
    (∀ (s : LoggerState) (level : Nat) (out : Stream) (now msg : String),
      s.timestampEnabled = true → s.level ≤ level →
      render s level out now msg = some (out, now ++ " - " ++ msg)) := by
  refine ⟨?_, ?_, ?_⟩
  · intro conf h
    constructor
    · intro hmem
      simp only [registeredSwitches, List.mem_append] at hmem
      rcases hmem with (hm | hm) | hm
      · rcases List.mem_map.mp hm with ⟨p, hp, he⟩
        simp only [Prod.mk.injEq] at he
        exact absurd (List.mem_map.mpr ⟨p, hp, he.1⟩) h
      · rcases List.mem_map.mp hm with ⟨p, _, he⟩
        simp at he
      · split at hm
        · next hcond =>
          simp only [Bool.and_eq_true] at hcond
          exact hcond
        · cases hm
    · rintro ⟨h1, h2⟩
      refine List.mem_append.mpr (Or.inr ?_)
      rw [if_pos (by rw [h1, h2]; rfl)]
      exact List.mem_singleton.mpr rfl
  · intro s
    rfl
  · intro s level out now msg ht hle
    unfold render
    rw [if_pos hle, ht]
    simp [String.append_assoc]

/-- Option metadata for a log-level option. -/
def logLevelMeta : OptionMeta :=
  { abbr := none, desc := "minimum logging level", hidden := false,
    default := none, values := none, hasCallback := true }

/-- Descriptor declaring a log-level option and nothing else. -/
def logLevelConf : CommandConf :=
  { flags := [], options := [("log-level", logLevelMeta)] }

/-- C8 witness: the log-level-only descriptor gets the synthetic
timestamp switch, the ready handler enables timestamps, and a rendered
line then starts with the timestamp. -/
theorem claim_C8_synthetic_timestamp_witness :
    ((("timestamp", SwitchKind.flag) ∈ registeredSwitches logLevelConf) ↔
      ((logLevelConf.options.lookup "log-level").isSome = true ∧
        (logLevelConf.options.lookup "timestamp").isNone = true)) ∧
    (timestampOptionHandler true initLogger).timestampEnabled = true ∧
    render (setTimestampEnabled initLogger true) 9 Stream.stdout "T" "m"
      = some (Stream.stdout, "T" ++ " - " ++ "m") :=
  ⟨claim_C8_synthetic_timestamp.1 logLevelConf (by decide),
   claim_C8_synthetic_timestamp.2.1 initLogger,
   claim_C8_synthetic_timestamp.2.2 (setTimestampEnabled initLogger true) 9
     Stream.stdout "T" "m" rfl (by decide)⟩

/-- TiError carrying the message of a failed SDK lookup. -/
def sdkNotFoundError : ErrorInfo :=
  { isTiError := true, message := "SDK not found", stack := "",
    before := none, after := none }

/-- Unexpected error carrying only a stack trace. -/
def unexpectedFailure : ErrorInfo :=
  { isTiError := false, message := "", stack := "TypeError: boom",
    before := none, after := none }

/-- C9 counterexample: with the logger silenced and the banner not yet
rendered, the handler output contains no banner write, though the claim
says the banner is rendered first whenever it was not already shown. -/
theorem claim_C9_counterexample :
    (silence initLogger).bannerRendered = false ∧
    ((handleTopLevelFailure (silence initLogger) sdkNotFoundError
        (some 1) (some 0)).1.any isBannerWrite) = false := by
  refine ⟨rfl, rfl⟩

/-- C9 amended: the handler forces the banner enabled and un-skipped and
invokes banner(), which writes the banner provided the threshold is
non-zero (the logger is not silenced) and the banner was not already
rendered; it then prints the failure text, then the help of the most
specific resolved command or else of the root program, and exits with
code 1, in that order; a TiError prints its message after an Error label
and any other error prints its stack trace. -/
theorem claim_C9_failure_handler :
    (∀ (s : LoggerState) (e : ErrorInfo) (command program : Option Nat),
      (handleTopLevelFailure s e command program).1 =
        (if s.level != 0 && !s.bannerRendered
          then [TopEffect.writeBanner (s.banner ++ "\n")] else [])
        ++ [TopEffect.writeError (formatFailure e)]
        ++ helpTarget command program
        ++ [TopEffect.exitProcess 1]) ∧
    (∀ e : ErrorInfo, e.isTiError = true → e.before = none → e.after = none →
      formatFailure e = ("Error: " ++ e.message).trim ++ "\n") ∧
    (∀ e : ErrorInfo, e.isTiError = false → e.before = none → e.after = none →
      formatFailure e = e.stack.trim ++ "\n") := by
  refine ⟨?_, ?_, ?_⟩
  · intro s e command program
    simp only [handleTopLevelFailure]
    rw [bannerCall_forced s]
    cases h : (s.level != 0 && !s.bannerRendered) <;> simp [h]
  · intro e h1 h2 h3
    simp [formatFailure, h1, h2, h3, String.empty_append, String.append_empty,
      String.append_assoc]
  · intro e h1 h2 h3
    simp [formatFailure, h1, h2, h3, String.empty_append, String.append_empty,
      String.append_assoc]

/-- C9 witness: on the fresh logger the handler writes the banner, the
failure text, the resolved command help and the exit, in order; the
TiError and stack formats hold at the two concrete errors. -/
theorem claim_C9_failure_handler_witness :
    (handleTopLevelFailure initLogger sdkNotFoundError (some 1) (some 0)).1 =
      (if initLogger.level != 0 && !initLogger.bannerRendered
        then [TopEffect.writeBanner (initLogger.banner ++ "\n")] else [])
      ++ [TopEffect.writeError (formatFailure sdkNotFoundError)]
      ++ helpTarget (some 1) (some 0)
      ++ [TopEffect.exitProcess 1] ∧
    formatFailure sdkNotFoundError
      = ("Error: " ++ sdkNotFoundError.message).trim ++ "\n" ∧
    formatFailure unexpectedFailure = unexpectedFailure.stack.trim ++ "\n" :=
  ⟨claim_C9_failure_handler.1 initLogger sdkNotFoundError (some 1) (some 0),
   claim_C9_failure_handler.2.1 sdkNotFoundError rfl rfl rfl,
   claim_C9_failure_handler.2.2 unexpectedFailure rfl rfl rfl⟩

end Titanium
